import Mathlib

set_option autoImplicit false

/-!
# Verification of the `pyuav2` environment/control layer

Shallow embedding of the repository `thomas097/pyUAV2`
(`pyuav2/environments.py`, `pyuav2/rendering.py`, and the driver
`example.py`).  The external physics/render engine (PyFlyt `Aviary`,
pybullet) is not part of the repository; where its behaviour is needed it
is modelled from the specification, and each such definition says so in
its doc comment.  Stateful Python methods become functions returning the
result together with the successor state and the trace of engine calls
made; Python `assert`/`raise` failures become `Except` errors, with one
error tag per raise site.
-/

/-- Numpy dtypes that appear in the source (`np.uint8`, `np.float32`).
The tag records the precision requested by the source; value-level
rounding is numpy-internal and outside this layer. -/
inductive DType where
  | uint8
  | float32
  deriving DecidableEq, Repr

/-- A 2-D numpy array as produced by `np.array(xs, dtype=dt)` on a list of
rows: the dtype tag plus the rows as given. -/
structure NpArray2D where
  dtype : DType
  rows : List (List Rat)
  deriving DecidableEq, Repr

/-- `np.array(xs, dtype=dt)` on a list of rows: numpy rejects ragged input
(every row must have the length of the first row); on rectangular input it
yields the tagged array. -/
def np_array_2d (dt : DType) (xs : List (List Rat)) : Option NpArray2D :=
  if xs.all (fun r => r.length = ((xs.head?).map List.length).getD 0) then
    some ⟨dt, xs⟩
  else
    none

/-- A 1-D numpy array (`np.array(v, dtype=dt)` on a flat vector). -/
structure NpVec where
  dtype : DType
  data : List Rat
  deriving DecidableEq, Repr

/-- `np.array(v, dtype=dt)` on a flat numeric vector. -/
def np_array_1d (dt : DType) (xs : List Rat) : NpVec := ⟨dt, xs⟩

/-- An n-dimensional numpy array, used for image buffers: dtype tag, shape,
and flat element data. -/
structure NDImage where
  dtype : DType
  shape : List Nat
  data : List Rat
  deriving DecidableEq, Repr

/-- `ndarray.reshape(s)`: succeeds exactly when the element count matches
the product of the requested shape. -/
def NDImage.reshape (a : NDImage) (s : List Nat) : Option NDImage :=
  if s.prod = a.data.length then some { a with shape := s } else none

/-- Python-level failures raised by this layer.  Each `assert` / `raise`
site in the source gets its own tag (standing for its distinct message),
plus the library errors its direct calls can raise. -/
inductive PyError where
  | assertControlMode (control_mode : String)
  | assertDroneModel (drone_model : String)
  | assertCountMismatch
  | assertSetpointsLen
  | assertIndexRange
  | attributeError
  | valueError
  | zeroDivisionError
  | modeNotUnderstood (mode : String)
  deriving DecidableEq, Repr

/-- The view matrix returned by `pyb.computeViewMatrix`, represented by its
defining inputs (the numeric 4×4 matrix itself is engine-internal). -/
structure ViewMatrix where
  eye : List Rat
  target : List Rat
  up : List Rat
  deriving DecidableEq, Repr

/-- The projection matrix returned by `pyb.computeProjectionMatrixFOV`,
represented by its defining inputs. -/
structure ProjMatrix where
  fov : Rat
  aspect : Rat
  near : Rat
  far : Rat
  deriving DecidableEq, Repr

/-- The renderer selector passed to `pyb.getCameraImage`. -/
inductive Renderer where
  | bulletHardwareOpenGL
  deriving DecidableEq, Repr

/-- The flags passed to `pyb.getCameraImage`. -/
inductive RenderFlag where
  | noSegmentationMask
  deriving DecidableEq, Repr

/-- Calls into the external engine (PyFlyt `Aviary` / pybullet), recorded
as a trace so that claims about which engine resources a call touches can
be stated. -/
inductive EngineCall where
  | aviaryCreate (start_pos start_orn : List (List Rat)) (render : Bool)
      (drone_type : String) (physics_hz : Nat) (use_camera : Bool) (drone_model : String)
  | setMode (mode : Nat)
  | setAllSetpoints (arr : NpArray2D)
  | setSetpoint (index : Int) (setpoint : NpVec)
  | stepSim
  | computeViewMatrix (eye target up : List Rat) (client : Nat)
  | computeProjectionMatrixFOV (fov aspect near far : Rat) (client : Nat)
  | getCameraImage (width height : Nat) (view : ViewMatrix) (proj : ProjMatrix)
      (shadow : Bool) (lightDirection : List Rat) (client : Nat)
      (renderer : Renderer) (flags : RenderFlag)
  deriving DecidableEq, Repr

/-- Modelled from the spec: one engine-side vehicle.  The engine keeps,
per vehicle, its live setpoint (zero-initialized at the mode's 4-element
width), its opaque state aggregate, whether the onboard-camera feature was
enabled at construction, and — exactly when it was — the most recently
rendered onboard frames (`rgbaImg` / `depthImg`); a vehicle without the
feature exposes no frame attribute. -/
structure Drone where
  setpoint : List Rat
  state : List Rat
  use_camera : Bool
  rgbaImg : Option NDImage
  depthImg : Option NDImage
  deriving DecidableEq, Repr

/-- Modelled from the spec: the engine session (PyFlyt `Aviary`): vehicles
in construction order, the whole-session actuation mode (a single value for
the session, set via `set_mode`; the session has no per-vehicle mode slot),
the physics tick rate, an elapsed-tick counter, and the opaque pybullet
client id. -/
structure Aviary where
  drones : List Drone
  mode : Option Nat
  physics_hz : Nat
  steps : Nat
  client : Nat
  deriving DecidableEq, Repr

/-- Modelled from the spec: engine vehicle spawning — one drone per pose
row, in row order; vehicle `i` starts from `start_pos[i]` / `start_orn[i]`
with a zero setpoint and receives the engine-rendered onboard frames
(`rgbaFrames i`, `depthFrames i`) exactly when the camera feature is on. -/
def mkDrones (use_camera : Bool) (rgbaFrames depthFrames : Nat → NDImage) :
    Nat → List (List Rat) → List (List Rat) → List Drone
  | _, [], _ => []
  | _, _ :: _, [] => []
  | i, p :: ps, r :: rs =>
    { setpoint := List.replicate 4 0
      state := p ++ r
      use_camera := use_camera
      rgbaImg := if use_camera then some (rgbaFrames i) else none
      depthImg := if use_camera then some (depthFrames i) else none } ::
    mkDrones use_camera rgbaFrames depthFrames (i + 1) ps rs

/-- Modelled from the spec: `Aviary(...)` session creation: spawns the
vehicles at the given poses; no actuation mode is selected yet. -/
def Aviary.create (start_pos start_orn : List (List Rat)) (physics_hz : Nat)
    (use_camera : Bool) (rgbaFrames depthFrames : Nat → NDImage) (client : Nat) : Aviary :=
  { drones := mkDrones use_camera rgbaFrames depthFrames 0 start_pos start_orn
    mode := none
    physics_hz := physics_hz
    steps := 0
    client := client }

/-- Modelled from the spec: `Aviary.set_mode(mode)`: selects the session's
actuation mode — one setting for the whole session. -/
def Aviary.set_mode (a : Aviary) (mode : Nat) : Aviary :=
  { a with mode := some mode }

/-- Modelled from the spec: `Aviary.all_states`: the engine's current
per-vehicle state collection, in vehicle-index order. -/
def Aviary.all_states (a : Aviary) : List (List Rat) :=
  a.drones.map Drone.state

/-- Modelled from the spec: bulk engine setpoint submission: row `i` of the
array becomes vehicle `i`'s live setpoint. -/
def applySetpoints : List Drone → List (List Rat) → List Drone
  | d :: ds, r :: rs => { d with setpoint := r } :: applySetpoints ds rs
  | ds, [] => ds
  | [], _ :: _ => []

/-- Modelled from the spec: `Aviary.set_all_setpoints(arr)`. -/
def Aviary.set_all_setpoints (a : Aviary) (arr : NpArray2D) : Aviary :=
  { a with drones := applySetpoints a.drones arr.rows }

/-- Overwrite the setpoint of the drone at position `i`, leaving every
other drone untouched. -/
def setDroneSetpoint (sp : List Rat) : Nat → List Drone → List Drone
  | _, [] => []
  | 0, d :: ds => { d with setpoint := sp } :: ds
  | i + 1, d :: ds => d :: setDroneSetpoint sp i ds

/-- Modelled from the spec: `Aviary.set_setpoint(index, setpoint)`:
overwrites the live setpoint of vehicle `index` only. -/
def Aviary.set_setpoint (a : Aviary) (index : Nat) (setpoint : NpVec) : Aviary :=
  { a with drones := setDroneSetpoint setpoint.data index a.drones }

/-- Modelled from the spec: one engine physics tick: integrates dynamics
for every vehicle from its live setpoint (`dyn` stands for the delegated
rigid-body dynamics) and advances the tick counter. -/
def Aviary.step (dyn : List Rat → List Rat → List Rat) (a : Aviary) : Aviary :=
  { a with
    steps := a.steps + 1
    drones := a.drones.map fun d => { d with state := dyn d.setpoint d.state } }

/-- The wrapper class `Environment` of `environments.py`: its only
instance attribute is the engine session `self._env`. -/
structure Environment where
  _env : Aviary
  deriving DecidableEq, Repr

/-- `Environment.DRONE_MODELS` (`environments.py` lines 7–10). -/
def Environment.DRONE_MODELS : List String :=
  ["primitive_drone", "cf2x"]

/-- `Environment.CONTROL_MODES` (`environments.py` lines 12–15): maps each
recognized control-mode string to the engine-native actuation-mode
identifier that is passed to `Aviary.set_mode`. -/
def Environment.CONTROL_MODES (control_mode : String) : Option Nat :=
  if control_mode = "positional" then some 7
  else if control_mode = "velocity" then some 6
  else none

/-- The setpoint layout of each control mode as documented in the source
(`environments.py` lines 13–14 and 37–39): "positional" uses control
inputs `[x, y, yaw, z]` and "velocity" uses `[vx, vy, vr, vz]`. -/
def Environment.CONTROL_MODE_INPUTS (control_mode : String) : Option (List String) :=
  if control_mode = "positional" then some ["x", "y", "yaw", "z"]
  else if control_mode = "velocity" then some ["vx", "vy", "vr", "vz"]
  else none

/-- `Environment.__init__` (`environments.py` lines 17–68): asserts, in
order, that the control mode is recognized, that the drone model is
recognized, and that `num_drones == start_pos.shape[0] == start_rot.shape[0]`;
only then creates the `Aviary` session and sets the whole-session actuation
mode.  Returns the constructed environment (or the failing assert) paired
with the trace of engine calls made.  `rgbaFrames` / `depthFrames` stand
for the engine-side onboard renders, and `client` for the engine-assigned
pybullet client id. -/
def Environment.init (num_drones : Nat) (start_pos start_rot : List (List Rat))
    (drone_model control_mode : String) (use_camera : Bool) (physics_hz : Nat)
    (rgbaFrames depthFrames : Nat → NDImage) (client : Nat) :
    Except PyError Environment × List EngineCall :=
  match Environment.CONTROL_MODES control_mode with
  | none => (.error (.assertControlMode control_mode), [])
  | some mode_id =>
    if Environment.DRONE_MODELS.contains drone_model then
      if num_drones = start_pos.length ∧ start_pos.length = start_rot.length then
        let a := Aviary.create start_pos start_rot physics_hz use_camera
          rgbaFrames depthFrames client
        (.ok ⟨a.set_mode mode_id⟩,
         [.aviaryCreate start_pos start_rot false "quadx" physics_hz use_camera drone_model,
          .setMode mode_id])
      else
        (.error .assertCountMismatch, [])
    else
      (.error (.assertDroneModel drone_model), [])

/-- `Environment.set_all_setpoints` (`environments.py` lines 98–105):
asserts `len(setpoints) == len(self._env.drones)`, then submits
`np.array(setpoints, dtype=np.float32)` to the engine. -/
def Environment.set_all_setpoints (e : Environment) (setpoints : List (List Rat)) :
    Except PyError Unit × Environment × List EngineCall :=
  if setpoints.length = e._env.drones.length then
    match np_array_2d .float32 setpoints with
    | some arr => (.ok (), ⟨e._env.set_all_setpoints arr⟩, [.setAllSetpoints arr])
    | none => (.error .valueError, e, [])
  else
    (.error .assertSetpointsLen, e, [])

/-- `Environment.set_setpoint` (`environments.py` lines 107–115): asserts
`0 <= idx < len(self._env.drones)`, then submits
`np.array(setpoint, dtype=np.float32)` for vehicle `idx`. -/
def Environment.set_setpoint (e : Environment) (idx : Int) (setpoint : List Rat) :
    Except PyError Unit × Environment × List EngineCall :=
  if 0 ≤ idx ∧ idx < (e._env.drones.length : Int) then
    let arr := np_array_1d .float32 setpoint
    (.ok (), ⟨e._env.set_setpoint idx.toNat arr⟩, [.setSetpoint idx arr])
  else
    (.error .assertIndexRange, e, [])

/-- `Environment.get_states` (`environments.py` lines 117–118): returns
`self._env.all_states`, a plain attribute read — no engine call and no
state change; paired with the (unchanged) environment and the (empty)
engine-call trace. -/
def Environment.get_states (e : Environment) :
    List (List Rat) × Environment × List EngineCall :=
  (e._env.all_states, e, [])

/-- `Environment.step` (`environments.py` lines 120–124): advances the
engine one tick and returns the refreshed state collection. -/
def Environment.step (dyn : List Rat → List Rat → List Rat) (e : Environment) :
    List (List Rat) × Environment × List EngineCall :=
  let a := e._env.step dyn
  (a.all_states, ⟨a⟩, [.stepSim])

/-- The Python attribute read `drone.rgbaImg` / `drone.depthImg`: a vehicle
whose camera feature is off has no such attribute (AttributeError). -/
def readFrame (img : Option NDImage) : Except PyError NDImage :=
  match img with
  | some i => .ok i
  | none => .error .attributeError

/-- The `for drone in self._env.drones` loop of
`Environment.get_camera_images` (`environments.py` lines 136–145): per
drone the mode string is dispatched; an unrecognized mode raises inside
the loop body, so it is never examined when there are no drones. -/
def cameraImagesLoop (mode : String) : List Drone → Except PyError (List NDImage)
  | [] => .ok []
  | d :: ds =>
    if mode = "rgba" then do
      let img ← readFrame d.rgbaImg
      let rest ← cameraImagesLoop mode ds
      pure (img :: rest)
    else if mode = "depth" then do
      let img ← readFrame d.depthImg
      let rest ← cameraImagesLoop mode ds
      pure (img :: rest)
    else
      .error (.modeNotUnderstood mode)

/-- `Environment.get_camera_images` (`environments.py` lines 126–145). -/
def Environment.get_camera_images (e : Environment) (mode : String) :
    Except PyError (List NDImage) :=
  cameraImagesLoop mode e._env.drones

/-- Modelled from the spec: `pyb.computeViewMatrix`: the engine derives the
view matrix from eye, target and up-reference; the matrix is represented by
those inputs. -/
def computeViewMatrix (eye target up : List Rat) : ViewMatrix :=
  ⟨eye, target, up⟩

/-- Modelled from the spec: `pyb.computeProjectionMatrixFOV`: the engine
derives the projection matrix from field of view, aspect ratio, and the
clip distances; the matrix is represented by those inputs. -/
def computeProjectionMatrixFOV (fov aspect near far : Rat) : ProjMatrix :=
  ⟨fov, aspect, near, far⟩

/-- The class `PerspectiveCamera` of `rendering.py`: all attributes are
written once in `__init__` and never mutated. -/
structure PerspectiveCamera where
  _client_id : Nat
  _fov : Rat
  _width : Nat
  _height : Nat
  _clip_far : Rat
  _clip_near : Rat
  _shadows : Bool
  _origin : List Rat
  _lookat : List Rat
  _upref : List Rat
  _view_matrix : ViewMatrix
  _proj_matrix : ProjMatrix
  deriving DecidableEq, Repr

/-- `PerspectiveCamera.__init__` (`rendering.py` lines 6–57): binds the
environment's pybullet client, stores the fixed parameters, and computes
the view and projection matrices once.  The aspect ratio is the Python
division `self._width / self._height`, so `height = 0` raises
ZeroDivisionError there — after the view matrix was already computed. -/
def PerspectiveCamera.init (env : Environment) (origin lookat : List Rat)
    (fov : Rat) (width height : Nat) (clip_near clip_far : Rat) (shadows : Bool) :
    Except PyError PerspectiveCamera × List EngineCall :=
  let client := env._env.client
  let upref : List Rat := [0, 0, 1]
  let view := computeViewMatrix origin lookat upref
  if height = 0 then
    (.error .zeroDivisionError, [.computeViewMatrix origin lookat upref client])
  else
    let aspect := (width : Rat) / (height : Rat)
    let proj := computeProjectionMatrixFOV fov aspect clip_near clip_far
    (.ok
      { _client_id := client
        _fov := fov
        _width := width
        _height := height
        _clip_far := clip_far
        _clip_near := clip_near
        _shadows := shadows
        _origin := origin
        _lookat := lookat
        _upref := upref
        _view_matrix := view
        _proj_matrix := proj },
     [.computeViewMatrix origin lookat upref client,
      .computeProjectionMatrixFOV fov aspect clip_near clip_far client])

/-- Modelled from the spec: `pyb.getCameraImage`: renders one frame at the
requested resolution with the given matrices and flags, returning the
requested width and height together with the raw rgba buffer (4 channel
values per pixel) and the raw depth buffer (1 value per pixel).  Pixel
contents are engine-internal and are supplied by the abstract scene
buffers `sceneRgba` / `sceneDepth`. -/
def getCameraImage (width height : Nat) (view : ViewMatrix) (proj : ProjMatrix)
    (shadow : Bool) (lightDirection : List Rat) (client : Nat)
    (renderer : Renderer) (flags : RenderFlag)
    (sceneRgba : Nat → Nat) (sceneDepth : Nat → Rat) :
    Nat × Nat × List Nat × List Rat :=
  (width, height,
   (List.range (width * height * 4)).map sceneRgba,
   (List.range (width * height)).map sceneDepth)

/-- `np.array(xs, dtype=np.uint8)` on raw integer pixel data: a flat uint8
array; numpy stores each value modulo 2^8. -/
def np_uint8_flat (xs : List Nat) : NDImage :=
  ⟨.uint8, [xs.length], xs.map (fun x => ((x % 256 : Nat) : Rat))⟩

/-- `np.array(xs, dtype=np.float32)` on raw depth data: a flat float32
array (the value-level rounding is numpy-internal). -/
def np_float32_flat (xs : List Rat) : NDImage :=
  ⟨.float32, [xs.length], xs⟩

/-- `PerspectiveCamera.get_image` (`rendering.py` lines 59–88): always
renders one frame first — with the stored matrices, resolution, shadow
flag, light direction `[1, 1, 1]`, hardware renderer and the
no-segmentation-mask flag — and only then dispatches on `mode`: "rgba" and
"depth" decode and reshape the corresponding buffer; any other mode
raises. -/
def PerspectiveCamera.get_image (cam : PerspectiveCamera)
    (sceneRgba : Nat → Nat) (sceneDepth : Nat → Rat) (mode : String) :
    Except PyError NDImage × List EngineCall :=
  let r := getCameraImage cam._width cam._height cam._view_matrix cam._proj_matrix
    cam._shadows [1, 1, 1] cam._client_id .bulletHardwareOpenGL .noSegmentationMask
    sceneRgba sceneDepth
  let trace := [EngineCall.getCameraImage cam._width cam._height cam._view_matrix
    cam._proj_matrix cam._shadows [1, 1, 1] cam._client_id .bulletHardwareOpenGL
    .noSegmentationMask]
  let width := r.1
  let height := r.2.1
  let rgba := r.2.2.1
  let depth := r.2.2.2
  if mode = "rgba" then
    match (np_uint8_flat rgba).reshape [height, width, 4] with
    | some img => (.ok img, trace)
    | none => (.error .valueError, trace)
  else if mode = "depth" then
    match (np_float32_flat depth).reshape [height, width, 1] with
    | some img => (.ok img, trace)
    | none => (.error .valueError, trace)
  else
    (.error (.modeNotUnderstood mode), trace)

/-- `example.py` lines 8–13: the four starting positions. -/
def Example.start_pos : List (List Rat) :=
  [[-19, 10, 1], [-20, 11, 1], [-18, 13, 1], [-19, 13, 1]]

/-- `example.py` line 40: the per-drone positional setpoint
`(x, y, 0, z + 5)` built from each `start_pos` row — a 4-element vector
driving the "positional" control mode. -/
def Example.setpoint : List (List Rat) :=
  Example.start_pos.filterMap (fun r =>
    match r with
    | [x, y, z] => some [x, y, 0, z + 5]
    | _ => none)

/-- A concrete engine frame, used to instantiate the engine-side frame
providers in concrete evaluations. -/
def defaultFrame : NDImage := ⟨.uint8, [1, 1, 4], [0, 0, 0, 0]⟩

/-- A constant engine frame provider for concrete evaluations. -/
def constFrames : Nat → NDImage := fun _ => defaultFrame

/-- A concrete camera-less drone, as spawned from pose `([0,0,0], [0,0,0])`
with the camera feature off. -/
def droneW : Drone := ⟨[0, 0, 0, 0], [0, 0, 0, 0, 0, 0], false, none, none⟩

/-- A concrete two-vehicle environment for concrete evaluations. -/
def envW2 : Environment := ⟨⟨[droneW, droneW], some 7, 240, 0, 0⟩⟩

/-- A concrete empty environment for concrete evaluations. -/
def envW0 : Environment := ⟨⟨[], none, 240, 0, 0⟩⟩

/-- A concrete camera for concrete evaluations: client 0, fov 45, 2×1
resolution, clip distances 1 and 300, no shadows. -/
def camW : PerspectiveCamera :=
  { _client_id := 0
    _fov := 45
    _width := 2
    _height := 1
    _clip_far := 300
    _clip_near := 1
    _shadows := false
    _origin := [0, 0, 0]
    _lookat := [1, 1, 1]
    _upref := [0, 0, 1]
    _view_matrix := ⟨[0, 0, 0], [1, 1, 1], [0, 0, 1]⟩
    _proj_matrix := ⟨45, ((2 : Nat) : Rat) / ((1 : Nat) : Rat), 1, 300⟩ }

/-- C1: `Environment.__init__` validates the control mode, then the drone
model, then the pose row counts; any failure aborts construction with the
corresponding assert before a single engine call is made (the trace of a
failed construction is empty, so no partial session exists), and an
unrecognized control mode always yields the control-mode error no matter
how invalid the remaining inputs are. -/
theorem init_validation_order (num_drones : Nat) (start_pos start_rot : List (List Rat))
    (drone_model control_mode : String) (use_camera : Bool) (physics_hz : Nat)
    (rgbaFrames depthFrames : Nat → NDImage) (client : Nat) :
    (Environment.CONTROL_MODES control_mode = none →
      Environment.init num_drones start_pos start_rot drone_model control_mode
          use_camera physics_hz rgbaFrames depthFrames client =
        (.error (.assertControlMode control_mode), [])) ∧
    (∀ mode_id, Environment.CONTROL_MODES control_mode = some mode_id →
      drone_model ∉ Environment.DRONE_MODELS →
      Environment.init num_drones start_pos start_rot drone_model control_mode
          use_camera physics_hz rgbaFrames depthFrames client =
        (.error (.assertDroneModel drone_model), [])) ∧
    (∀ mode_id, Environment.CONTROL_MODES control_mode = some mode_id →
      drone_model ∈ Environment.DRONE_MODELS →
      ¬ (num_drones = start_pos.length ∧ start_pos.length = start_rot.length) →
      Environment.init num_drones start_pos start_rot drone_model control_mode
          use_camera physics_hz rgbaFrames depthFrames client =
        (.error .assertCountMismatch, [])) ∧
    (∀ err trace,
      Environment.init num_drones start_pos start_rot drone_model control_mode
          use_camera physics_hz rgbaFrames depthFrames client = (.error err, trace) →
      trace = []) := by
  have h1 : Environment.CONTROL_MODES control_mode = none →
      Environment.init num_drones start_pos start_rot drone_model control_mode
          use_camera physics_hz rgbaFrames depthFrames client =
        (.error (.assertControlMode control_mode), []) := by
    intro h
    simp [Environment.init, h]
  have h2 : ∀ mode_id, Environment.CONTROL_MODES control_mode = some mode_id →
      drone_model ∉ Environment.DRONE_MODELS →
      Environment.init num_drones start_pos start_rot drone_model control_mode
          use_camera physics_hz rgbaFrames depthFrames client =
        (.error (.assertDroneModel drone_model), []) := by
    intro mode_id hm hd
    simp [Environment.init, hm, hd]
  have h3 : ∀ mode_id, Environment.CONTROL_MODES control_mode = some mode_id →
      drone_model ∈ Environment.DRONE_MODELS →
      ¬ (num_drones = start_pos.length ∧ start_pos.length = start_rot.length) →
      Environment.init num_drones start_pos start_rot drone_model control_mode
          use_camera physics_hz rgbaFrames depthFrames client =
        (.error .assertCountMismatch, []) := by
    intro mode_id hm hd hcnt
    simp [Environment.init, hm, hd, hcnt]
  have h4 : ∀ mode_id, Environment.CONTROL_MODES control_mode = some mode_id →
      drone_model ∈ Environment.DRONE_MODELS →
      (num_drones = start_pos.length ∧ start_pos.length = start_rot.length) →
      Environment.init num_drones start_pos start_rot drone_model control_mode
          use_camera physics_hz rgbaFrames depthFrames client =
        (.ok ⟨(Aviary.create start_pos start_rot physics_hz use_camera
                rgbaFrames depthFrames client).set_mode mode_id⟩,
         [.aviaryCreate start_pos start_rot false "quadx" physics_hz use_camera drone_model,
          .setMode mode_id]) := by
    intro mode_id hm hd hcnt
    simp [Environment.init, hm, hd, hcnt]
  refine ⟨h1, h2, h3, ?_⟩
  intro err trace h
  cases hm : Environment.CONTROL_MODES control_mode with
  | none =>
    rw [h1 hm] at h
    simp only [Prod.mk.injEq] at h
    exact h.2.symm
  | some mode_id =>
    by_cases hd : drone_model ∈ Environment.DRONE_MODELS
    · by_cases hcnt : num_drones = start_pos.length ∧ start_pos.length = start_rot.length
      · rw [h4 mode_id hm hd hcnt] at h
        simp only [Prod.mk.injEq] at h
        exact Except.noConfusion h.1
      · rw [h3 mode_id hm hd hcnt] at h
        simp only [Prod.mk.injEq] at h
        exact h.2.symm
    · rw [h2 mode_id hm hd] at h
      simp only [Prod.mk.injEq] at h
      exact h.2.symm

/-- C1 witness: with control mode "diagonal" (unrecognized), an unknown
drone model AND mismatched row counts, construction still fails with the
control-mode assert and makes no engine call. -/
theorem init_validation_order_witness :
    Environment.init 1 [[0, 0, 0]] [] "bogus_model" "diagonal" false 240
        constFrames constFrames 0 =
      (.error (.assertControlMode "diagonal"), []) :=
  (init_validation_order 1 [[0, 0, 0]] [] "bogus_model" "diagonal" false 240
    constFrames constFrames 0).1 rfl

/-- C2 counterexample: in the source, 7 and 6 are the engine-native
actuation-mode identifiers stored in `CONTROL_MODES`, not setpoint widths:
the documented "positional" setpoint layout `[x, y, yaw, z]` has 4
elements (not 7), and the repository's own example drives "positional"
mode with 4-element setpoint vectors. -/
theorem positional_setpoint_width_cex :
    Environment.CONTROL_MODES "positional" = some 7 ∧
    Environment.CONTROL_MODES "velocity" = some 6 ∧
    Environment.CONTROL_MODE_INPUTS "positional" = some ["x", "y", "yaw", "z"] ∧
    ¬ ((Environment.CONTROL_MODE_INPUTS "positional").map List.length = some 7) ∧
    ¬ ((Environment.CONTROL_MODE_INPUTS "velocity").map List.length = some 6) ∧
    Example.setpoint.map List.length = [4, 4, 4, 4] := by
  refine ⟨rfl, rfl, rfl, by decide, by decide, by decide⟩

/-- C2 (amended): setpoint vectors are 4 elements wide in both control
modes (`[x, y, yaw, z]` for "positional", `[vx, vy, vr, vz]` for
"velocity"); the numeric values 7 and 6 associated with the control modes
are engine-native actuation-mode identifiers, applied exactly once at
construction — the successful construction trace is the session creation
followed by a single whole-session `set_mode` call carrying that
identifier, and the session's mode is one shared value with no per-vehicle
slot. -/
theorem control_mode_applied_once (num_drones : Nat) (start_pos start_rot : List (List Rat))
    (drone_model control_mode : String) (use_camera : Bool) (physics_hz : Nat)
    (rgbaFrames depthFrames : Nat → NDImage) (client : Nat) (mode_id : Nat)
    (hm : Environment.CONTROL_MODES control_mode = some mode_id)
    (hd : drone_model ∈ Environment.DRONE_MODELS)
    (hn : num_drones = start_pos.length)
    (hr : start_pos.length = start_rot.length) :
    (Environment.CONTROL_MODE_INPUTS control_mode).map List.length = some 4 ∧
    ∃ env,
      Environment.init num_drones start_pos start_rot drone_model control_mode
          use_camera physics_hz rgbaFrames depthFrames client =
        (.ok env,
         [.aviaryCreate start_pos start_rot false "quadx" physics_hz use_camera drone_model,
          .setMode mode_id]) ∧
      env._env.mode = some mode_id := by
  constructor
  · by_cases hp : control_mode = "positional"
    · subst hp; rfl
    · by_cases hv : control_mode = "velocity"
      · subst hv; rfl
      · exfalso
        unfold Environment.CONTROL_MODES at hm
        rw [if_neg hp, if_neg hv] at hm
        exact Option.noConfusion hm
  · refine ⟨⟨(Aviary.create start_pos start_rot physics_hz use_camera
        rgbaFrames depthFrames client).set_mode mode_id⟩, ?_, rfl⟩
    simp [Environment.init, hm, hd, hn, hr]

/-- C2 witness: a concrete one-vehicle "positional" construction: the
trace is exactly `Aviary` creation followed by `set_mode 7`, and the
documented setpoint layout of the mode has 4 elements. -/
theorem control_mode_applied_once_witness :
    (Environment.CONTROL_MODE_INPUTS "positional").map List.length = some 4 ∧
    ∃ env,
      Environment.init 1 [[0, 0, 0]] [[0, 0, 0]] "primitive_drone" "positional"
          false 240 constFrames constFrames 0 =
        (.ok env,
         [.aviaryCreate [[0, 0, 0]] [[0, 0, 0]] false "quadx" 240 false "primitive_drone",
          .setMode 7]) ∧
      env._env.mode = some 7 :=
  control_mode_applied_once 1 [[0, 0, 0]] [[0, 0, 0]] "primitive_drone" "positional"
    false 240 constFrames constFrames 0 7 rfl (by decide) rfl rfl

/-- C9: construction does not require a positive vehicle count: with
`num_drones = 0` and 0-row pose matrices every assert of this layer
passes, the session is created empty, and `get_camera_images` then
returns the empty list for EVERY mode string — recognized or not —
because the mode dispatch only happens inside the per-vehicle loop. -/
theorem zero_drones_valid (drone_model control_mode : String) (mode_id : Nat)
    (use_camera : Bool) (physics_hz : Nat) (rgbaFrames depthFrames : Nat → NDImage)
    (client : Nat)
    (hm : Environment.CONTROL_MODES control_mode = some mode_id)
    (hd : drone_model ∈ Environment.DRONE_MODELS) :
    ∃ env,
      Environment.init 0 [] [] drone_model control_mode use_camera physics_hz
          rgbaFrames depthFrames client =
        (.ok env,
         [.aviaryCreate [] [] false "quadx" physics_hz use_camera drone_model,
          .setMode mode_id]) ∧
      env._env.drones = [] ∧
      (∀ mode : String, env.get_camera_images mode = .ok []) := by
  refine ⟨⟨(Aviary.create [] [] physics_hz use_camera rgbaFrames depthFrames
    client).set_mode mode_id⟩, ?_, rfl, fun mode => rfl⟩
  simp [Environment.init, hm, hd]

/-- C9 witness: the concrete empty construction, including an unrecognized
mode string passed to `get_camera_images` without error. -/
theorem zero_drones_valid_witness :
    ∃ env,
      Environment.init 0 [] [] "cf2x" "velocity" false 240
          constFrames constFrames 0 =
        (.ok env,
         [.aviaryCreate [] [] false "quadx" 240 false "cf2x", .setMode 6]) ∧
      env._env.drones = [] ∧
      (∀ mode : String, env.get_camera_images mode = .ok []) :=
  zero_drones_valid "cf2x" "velocity" 6 false 240 constFrames constFrames 0
    rfl (by decide)

theorem cameraImagesLoop_mkDrones_true (rgbaFrames depthFrames : Nat → NDImage) :
    ∀ (i : Nat) (ps rs : List (List Rat)), ps.length = rs.length →
      cameraImagesLoop "rgba" (mkDrones true rgbaFrames depthFrames i ps rs) =
        .ok ((List.range' i ps.length).map rgbaFrames) ∧
      cameraImagesLoop "depth" (mkDrones true rgbaFrames depthFrames i ps rs) =
        .ok ((List.range' i ps.length).map depthFrames) := by
  have hne : ¬ (("depth" : String) = "rgba") := by decide
  intro i ps
  induction ps generalizing i with
  | nil => intro rs _; exact ⟨rfl, rfl⟩
  | cons p ps ih =>
    intro rs h
    cases rs with
    | nil => simp at h
    | cons r rs =>
      have h' : ps.length = rs.length := by simpa using h
      obtain ⟨ih1, ih2⟩ := ih (i + 1) rs h'
      constructor
      · simp [mkDrones, cameraImagesLoop, readFrame, List.range'_succ, ih1]
        all_goals rfl
      · simp [mkDrones, cameraImagesLoop, readFrame, List.range'_succ, ih2, hne]
        all_goals rfl

theorem cameraImagesLoop_mkDrones_false (rgbaFrames depthFrames : Nat → NDImage)
    (i : Nat) (p r : List Rat) (ps rs : List (List Rat)) :
    cameraImagesLoop "rgba" (mkDrones false rgbaFrames depthFrames i (p :: ps) (r :: rs)) =
      .error .attributeError ∧
    cameraImagesLoop "depth" (mkDrones false rgbaFrames depthFrames i (p :: ps) (r :: rs)) =
      .error .attributeError := by
  have hne : ¬ (("depth" : String) = "rgba") := by decide
  constructor
  · simp [mkDrones, cameraImagesLoop, readFrame]
    all_goals rfl
  · simp [mkDrones, cameraImagesLoop, readFrame, hne]
    all_goals rfl

/-- C3 counterexample: a one-vehicle environment constructed with the
onboard-camera feature off: `get_camera_images("rgba")` does not skip the
camera-less vehicle and return the empty list — the loop reads the missing
per-vehicle frame and the call fails. -/
theorem get_camera_images_no_filter_cex :
    (Environment.init 1 [[0, 0, 0]] [[0, 0, 0]] "primitive_drone" "positional" false 240
        constFrames constFrames 0).1 =
      .ok ⟨⟨[droneW], some 7, 240, 0, 0⟩⟩ ∧
    Environment.get_camera_images ⟨⟨[droneW], some 7, 240, 0, 0⟩⟩ "rgba" =
      .error .attributeError ∧
    Environment.get_camera_images ⟨⟨[droneW], some 7, 240, 0, 0⟩⟩ "rgba" ≠ .ok [] := by
  refine ⟨rfl, rfl, fun hcontra => Except.noConfusion hcontra⟩

/-- C3 (amended): `get_camera_images` iterates over ALL vehicles in
vehicle-index order without filtering on camera enablement (the flag is
whole-session anyway): when the onboard-camera feature was enabled at
construction it returns exactly one frame per vehicle, in vehicle-index
order; when it was disabled and at least one vehicle exists, the call
fails on the first vehicle's missing frame instead of contributing no
entry. -/
theorem get_camera_images_per_vehicle (num_drones : Nat) (start_pos start_rot : List (List Rat))
    (drone_model control_mode : String) (use_camera : Bool) (physics_hz : Nat)
    (rgbaFrames depthFrames : Nat → NDImage) (client : Nat) (mode_id : Nat) (env : Environment)
    (hm : Environment.CONTROL_MODES control_mode = some mode_id)
    (hd : drone_model ∈ Environment.DRONE_MODELS)
    (hn : num_drones = start_pos.length)
    (hr : start_pos.length = start_rot.length)
    (henv : (Environment.init num_drones start_pos start_rot drone_model control_mode
        use_camera physics_hz rgbaFrames depthFrames client).1 = .ok env) :
    (use_camera = true →
      env.get_camera_images "rgba" = .ok ((List.range num_drones).map rgbaFrames) ∧
      env.get_camera_images "depth" = .ok ((List.range num_drones).map depthFrames)) ∧
    (use_camera = false → 1 ≤ num_drones →
      env.get_camera_images "rgba" = .error .attributeError ∧
      env.get_camera_images "depth" = .error .attributeError) := by
  have henv' : env = ⟨(Aviary.create start_pos start_rot physics_hz use_camera
      rgbaFrames depthFrames client).set_mode mode_id⟩ := by
    simp [Environment.init, hm, hd, hn, hr] at henv
    exact henv.symm
  subst henv'
  constructor
  · intro hcam
    subst hcam
    have hloop := cameraImagesLoop_mkDrones_true rgbaFrames depthFrames 0 start_pos start_rot hr
    rw [hn, List.range_eq_range']
    exact ⟨hloop.1, hloop.2⟩
  · intro hcam hpos
    subst hcam
    obtain ⟨p, ps, hps⟩ : ∃ p ps, start_pos = p :: ps := by
      cases hsp : start_pos with
      | nil => rw [hsp] at hn; simp at hn; omega
      | cons a as => exact ⟨a, as, rfl⟩
    obtain ⟨r, rs, hrs⟩ : ∃ r rs, start_rot = r :: rs := by
      cases hsr : start_rot with
      | nil => rw [hps, hsr] at hr; simp at hr
      | cons a as => exact ⟨a, as, rfl⟩
    have hloop := cameraImagesLoop_mkDrones_false rgbaFrames depthFrames 0 p r ps rs
    constructor
    · show cameraImagesLoop "rgba"
        (mkDrones false rgbaFrames depthFrames 0 start_pos start_rot) = _
      rw [hps, hrs]
      exact hloop.1
    · show cameraImagesLoop "depth"
        (mkDrones false rgbaFrames depthFrames 0 start_pos start_rot) = _
      rw [hps, hrs]
      exact hloop.2

/-- C3 witness: a concrete two-vehicle camera-enabled environment returns
exactly one frame per vehicle, in vehicle-index order. -/
theorem get_camera_images_per_vehicle_witness :
    Environment.get_camera_images
        ⟨(Aviary.create [[0, 0, 0], [1, 1, 1]] [[0, 0, 0], [2, 2, 2]] 240 true
            constFrames constFrames 0).set_mode 7⟩ "rgba" =
      .ok ((List.range 2).map constFrames) :=
  ((get_camera_images_per_vehicle 2 [[0, 0, 0], [1, 1, 1]] [[0, 0, 0], [2, 2, 2]]
      "cf2x" "positional" true 240 constFrames constFrames 0 7 _
      rfl (by decide) rfl rfl rfl).1 rfl).1

/-- C7 counterexample: in a zero-vehicle environment the unrecognized mode
string "bogus" does NOT make `get_camera_images` fail — the mode check
lives inside the per-vehicle loop, so the call returns the empty list. -/
theorem get_camera_images_bogus_cex :
    (Environment.init 0 [] [] "primitive_drone" "positional" false 240
        constFrames constFrames 0).1 = .ok ⟨⟨[], some 7, 240, 0, 0⟩⟩ ∧
    Environment.get_camera_images ⟨⟨[], some 7, 240, 0, 0⟩⟩ "bogus" = .ok [] := by
  exact ⟨rfl, rfl⟩

/-- C7 (amended): for a mode other than "rgba" and "depth",
`PerspectiveCamera.get_image` always fails with the unrecognized-mode
error, and `Environment.get_camera_images` fails with the
unrecognized-mode error whenever at least one vehicle exists; with zero
vehicles it instead returns the empty list.  In no case does an
unrecognized mode produce image data. -/
theorem unrecognized_mode_fails (mode : String)
    (h1 : mode ≠ "rgba") (h2 : mode ≠ "depth") :
    (∀ (cam : PerspectiveCamera) (sceneRgba : Nat → Nat) (sceneDepth : Nat → Rat),
      (cam.get_image sceneRgba sceneDepth mode).1 = .error (.modeNotUnderstood mode)) ∧
    (∀ e : Environment, e._env.drones ≠ [] →
      e.get_camera_images mode = .error (.modeNotUnderstood mode)) ∧
    (∀ e : Environment, e._env.drones = [] →
      e.get_camera_images mode = .ok []) := by
  refine ⟨?_, ?_, ?_⟩
  · intro cam sceneRgba sceneDepth
    simp [PerspectiveCamera.get_image, h1, h2]
  · intro e he
    unfold Environment.get_camera_images
    cases hd : e._env.drones with
    | nil => exact absurd hd he
    | cons d ds => simp [cameraImagesLoop, h1, h2]
  · intro e he
    unfold Environment.get_camera_images
    rw [he]
    rfl

/-- C7 witness: concrete calls with mode "bogus": the camera call and a
two-vehicle environment call fail with the unrecognized-mode error, and
the zero-vehicle environment call returns the empty list. -/
theorem unrecognized_mode_fails_witness :
    (PerspectiveCamera.get_image camW (fun _ => 0) (fun _ => 0) "bogus").1 =
      .error (.modeNotUnderstood "bogus") ∧
    Environment.get_camera_images envW2 "bogus" = .error (.modeNotUnderstood "bogus") ∧
    Environment.get_camera_images envW0 "bogus" = .ok [] := by
  obtain ⟨a, b, c⟩ := unrecognized_mode_fails "bogus" (by decide) (by decide)
  exact ⟨a camW (fun _ => 0) (fun _ => 0), b envW2 (by decide), c envW0 rfl⟩

theorem applySetpoints_getElem? (ds : List Drone) :
    ∀ (rs : List (List Rat)) (j : Nat),
      (applySetpoints ds rs)[j]? =
        (ds[j]?).map (fun d => { d with setpoint := (rs[j]?).getD d.setpoint }) := by
  induction ds with
  | nil =>
    intro rs j
    cases rs <;> simp [applySetpoints]
  | cons d ds ih =>
    intro rs j
    cases rs with
    | nil =>
      cases j with
      | zero => simp [applySetpoints]
      | succ j =>
        show (d :: ds)[j + 1]? = ((d :: ds)[j + 1]?).map _
        cases h : ds[j]? <;> simp [h]
    | cons r rs =>
      cases j with
      | zero => simp [applySetpoints]
      | succ j => simpa [applySetpoints] using ih rs j

theorem applySetpoints_length (ds : List Drone) :
    ∀ rs : List (List Rat), (applySetpoints ds rs).length = ds.length := by
  induction ds with
  | nil => intro rs; cases rs <;> rfl
  | cons d ds ih =>
    intro rs
    cases rs with
    | nil => rfl
    | cons r rs => simpa [applySetpoints] using ih rs

/-- C4: `set_all_setpoints` with a batch whose length differs from the
vehicle count fails on the assert and leaves the environment (hence every
live setpoint) untouched, with no engine call; with a length-N batch of
(uniform-width) setpoint vectors it submits a single engine call whose
array carries dtype float32 and overwrites the live setpoint of every
vehicle with its row, touching nothing else. -/
theorem set_all_setpoints_contract (e : Environment) (setpoints : List (List Rat)) (w : Nat) :
    (setpoints.length ≠ e._env.drones.length →
      e.set_all_setpoints setpoints = (.error .assertSetpointsLen, e, [])) ∧
    (setpoints.length = e._env.drones.length →
      (∀ r ∈ setpoints, r.length = w) →
      ∃ env2,
        e.set_all_setpoints setpoints =
          (.ok (), env2, [.setAllSetpoints ⟨.float32, setpoints⟩]) ∧
        (∀ j : Nat, env2._env.drones[j]? =
          (e._env.drones[j]?).map (fun d => { d with setpoint := (setpoints[j]?).getD d.setpoint })) ∧
        env2._env.drones.length = e._env.drones.length ∧
        env2._env.mode = e._env.mode ∧
        env2._env.steps = e._env.steps ∧
        env2._env.physics_hz = e._env.physics_hz ∧
        env2._env.client = e._env.client) := by
  constructor
  · intro hlen
    simp [Environment.set_all_setpoints, hlen]
  · intro hlen hw
    have hrect : np_array_2d .float32 setpoints = some ⟨.float32, setpoints⟩ := by
      unfold np_array_2d
      rw [if_pos]
      rw [List.all_eq_true]
      intro r hr
      cases setpoints with
      | nil => cases hr
      | cons s ss =>
        have h1 : r.length = w := hw r hr
        have h2 : s.length = w := hw s (List.mem_cons_self s ss)
        simp [h1, h2]
    refine ⟨⟨e._env.set_all_setpoints ⟨.float32, setpoints⟩⟩, ?_, ?_, ?_, rfl, rfl, rfl, rfl⟩
    · simp [Environment.set_all_setpoints, hlen, hrect]
    · intro j
      exact applySetpoints_getElem? e._env.drones setpoints j
    · exact applySetpoints_length e._env.drones setpoints

/-- C4 witness: on the concrete two-vehicle environment, a length-1 batch
fails with the assert and leaves the environment unchanged, and a length-2
batch of 4-wide vectors succeeds. -/
theorem set_all_setpoints_contract_witness :
    Environment.set_all_setpoints envW2 [[1, 2, 3, 4]] =
      (.error .assertSetpointsLen, envW2, []) ∧
    ∃ env2,
      Environment.set_all_setpoints envW2 [[1, 2, 3, 4], [5, 6, 7, 8]] =
        (.ok (), env2, [.setAllSetpoints ⟨.float32, [[1, 2, 3, 4], [5, 6, 7, 8]]⟩]) ∧
      (∀ j : Nat, env2._env.drones[j]? =
        (envW2._env.drones[j]?).map
          (fun d => { d with setpoint := (([[1, 2, 3, 4], [5, 6, 7, 8]] :
            List (List Rat))[j]?).getD d.setpoint })) ∧
      env2._env.drones.length = envW2._env.drones.length ∧
      env2._env.mode = envW2._env.mode ∧
      env2._env.steps = envW2._env.steps ∧
      env2._env.physics_hz = envW2._env.physics_hz ∧
      env2._env.client = envW2._env.client := by
  constructor
  · exact (set_all_setpoints_contract envW2 [[1, 2, 3, 4]] 4).1 (by decide)
  · exact (set_all_setpoints_contract envW2 [[1, 2, 3, 4], [5, 6, 7, 8]] 4).2
      (by decide) (by decide)

theorem setDroneSetpoint_getElem? (sp : List Rat) :
    ∀ (i : Nat) (ds : List Drone) (j : Nat),
      (setDroneSetpoint sp i ds)[j]? =
        if j = i then (ds[j]?).map (fun d => { d with setpoint := sp }) else ds[j]? := by
  intro i ds
  induction ds generalizing i with
  | nil =>
    intro j
    cases i <;> simp [setDroneSetpoint]
  | cons d ds ih =>
    intro j
    cases i with
    | zero =>
      cases j with
      | zero => simp [setDroneSetpoint]
      | succ j => simp [setDroneSetpoint]
    | succ i =>
      cases j with
      | zero => simp [setDroneSetpoint]
      | succ j =>
        have := ih i j
        simp [setDroneSetpoint, this]

/-- C5: `set_setpoint(idx, setpoint)` with `idx` outside `[0, N)`
(including negative indices) fails on the assert and has no effect; with
`idx` inside `[0, N)` it submits one float32-tagged engine call and
overwrites the live setpoint of exactly vehicle `idx`, while every other
vehicle and every other session attribute keeps its previous value. -/
theorem set_setpoint_frame (e : Environment) (idx : Int) (setpoint : List Rat) :
    (¬ (0 ≤ idx ∧ idx < (e._env.drones.length : Int)) →
      e.set_setpoint idx setpoint = (.error .assertIndexRange, e, [])) ∧
    ((0 ≤ idx ∧ idx < (e._env.drones.length : Int)) →
      ∃ env2,
        e.set_setpoint idx setpoint =
          (.ok (), env2, [.setSetpoint idx ⟨.float32, setpoint⟩]) ∧
        env2._env.drones[idx.toNat]? =
          (e._env.drones[idx.toNat]?).map (fun d => { d with setpoint := setpoint }) ∧
        (∀ j : Nat, j ≠ idx.toNat → env2._env.drones[j]? = e._env.drones[j]?) ∧
        env2._env.mode = e._env.mode ∧
        env2._env.steps = e._env.steps ∧
        env2._env.physics_hz = e._env.physics_hz ∧
        env2._env.client = e._env.client) := by
  constructor
  · intro hrange
    simp only [Environment.set_setpoint, if_neg hrange]
  · intro hrange
    refine ⟨⟨e._env.set_setpoint idx.toNat ⟨.float32, setpoint⟩⟩, ?_, ?_, ?_, rfl, rfl, rfl, rfl⟩
    · simp only [Environment.set_setpoint, if_pos hrange]
      rfl
    · rw [show (⟨e._env.set_setpoint idx.toNat ⟨.float32, setpoint⟩⟩ :
          Environment)._env.drones =
        setDroneSetpoint setpoint idx.toNat e._env.drones from rfl]
      rw [setDroneSetpoint_getElem?, if_pos rfl]
    · intro j hj
      rw [show (⟨e._env.set_setpoint idx.toNat ⟨.float32, setpoint⟩⟩ :
          Environment)._env.drones =
        setDroneSetpoint setpoint idx.toNat e._env.drones from rfl]
      rw [setDroneSetpoint_getElem?, if_neg hj]

/-- C5 witness: on the concrete two-vehicle environment, index 2 (out of
range) fails with no effect, and index 1 overwrites exactly vehicle 1. -/
theorem set_setpoint_frame_witness :
    Environment.set_setpoint envW2 2 [9, 9, 9, 9] =
      (.error .assertIndexRange, envW2, []) ∧
    ∃ env2,
      Environment.set_setpoint envW2 1 [9, 9, 9, 9] =
        (.ok (), env2, [.setSetpoint 1 ⟨.float32, [9, 9, 9, 9]⟩]) ∧
      env2._env.drones[(1 : Int).toNat]? =
        (envW2._env.drones[(1 : Int).toNat]?).map
          (fun d => { d with setpoint := [9, 9, 9, 9] }) ∧
      (∀ j : Nat, j ≠ (1 : Int).toNat → env2._env.drones[j]? = envW2._env.drones[j]?) ∧
      env2._env.mode = envW2._env.mode ∧
      env2._env.steps = envW2._env.steps ∧
      env2._env.physics_hz = envW2._env.physics_hz ∧
      env2._env.client = envW2._env.client := by
  constructor
  · exact (set_setpoint_frame envW2 2 [9, 9, 9, 9]).1 (by decide)
  · exact (set_setpoint_frame envW2 1 [9, 9, 9, 9]).2 (by decide)

/-- C8: `get_states` is a pure read: it returns the engine's current state
collection, leaves the environment — including the elapsed-tick counter —
unchanged, makes no engine call (in particular no step), and a second call
with no intervening `step` returns identical data. -/
theorem get_states_pure (e : Environment) :
    e.get_states = (e._env.all_states, e, []) ∧
    (e.get_states).2.1 = e ∧
    ((e.get_states).2.1.get_states).1 = (e.get_states).1 ∧
    (e.get_states).2.1._env.steps = e._env.steps ∧
    EngineCall.stepSim ∉ (e.get_states).2.2 := by
  refine ⟨rfl, rfl, rfl, rfl, ?_⟩
  simp [Environment.get_states]

theorem get_image_rgba (cam : PerspectiveCamera)
    (sceneRgba : Nat → Nat) (sceneDepth : Nat → Rat) :
    cam.get_image sceneRgba sceneDepth "rgba" =
      (.ok ⟨.uint8, [cam._height, cam._width, 4],
        ((List.range (cam._width * cam._height * 4)).map sceneRgba).map
          (fun x => ((x % 256 : Nat) : Rat))⟩,
       [.getCameraImage cam._width cam._height cam._view_matrix cam._proj_matrix
          cam._shadows [1, 1, 1] cam._client_id .bulletHardwareOpenGL
          .noSegmentationMask]) := by
  have hsize : ([cam._height, cam._width, 4] : List Nat).prod =
      (((List.range (cam._width * cam._height * 4)).map sceneRgba).map
        (fun x => ((x % 256 : Nat) : Rat))).length := by
    simp [List.prod_cons]
    ring
  simp only [PerspectiveCamera.get_image, getCameraImage, np_uint8_flat, NDImage.reshape,
    if_true]
  rw [if_pos hsize]

theorem get_image_depth (cam : PerspectiveCamera)
    (sceneRgba : Nat → Nat) (sceneDepth : Nat → Rat) :
    cam.get_image sceneRgba sceneDepth "depth" =
      (.ok ⟨.float32, [cam._height, cam._width, 1],
        (List.range (cam._width * cam._height)).map sceneDepth⟩,
       [.getCameraImage cam._width cam._height cam._view_matrix cam._proj_matrix
          cam._shadows [1, 1, 1] cam._client_id .bulletHardwareOpenGL
          .noSegmentationMask]) := by
  have hsize : ([cam._height, cam._width, 1] : List Nat).prod =
      ((List.range (cam._width * cam._height)).map sceneDepth).length := by
    simp [List.prod_cons]
    ring
  have hne : ¬ (("depth" : String) = "rgba") := by decide
  simp only [PerspectiveCamera.get_image, getCameraImage, np_float32_flat, NDImage.reshape,
    if_true]
  rw [if_pos hsize, if_neg hne]

/-- C6: for every successfully constructed `PerspectiveCamera`,
`get_image("rgba")` returns a `(height, width, 4)` uint8 buffer and
`get_image("depth")` a `(height, width, 1)` float32 buffer at the
construction-time resolution, and every call renders with the view and
projection matrices that were computed once at construction from the
construction inputs. -/
theorem get_image_shapes (env : Environment) (origin lookat : List Rat) (fov : Rat)
    (width height : Nat) (clip_near clip_far : Rat) (shadows : Bool)
    (cam : PerspectiveCamera) (sceneRgba : Nat → Nat) (sceneDepth : Nat → Rat)
    (hc : (PerspectiveCamera.init env origin lookat fov width height clip_near
        clip_far shadows).1 = .ok cam) :
    cam._width = width ∧ cam._height = height ∧ cam._shadows = shadows ∧
    cam._client_id = env._env.client ∧
    cam._view_matrix = computeViewMatrix origin lookat [0, 0, 1] ∧
    cam._proj_matrix =
      computeProjectionMatrixFOV fov ((width : Rat) / (height : Rat)) clip_near clip_far ∧
    (∃ img,
      cam.get_image sceneRgba sceneDepth "rgba" =
        (.ok img,
         [.getCameraImage width height cam._view_matrix cam._proj_matrix shadows
            [1, 1, 1] env._env.client .bulletHardwareOpenGL .noSegmentationMask]) ∧
      img.shape = [height, width, 4] ∧ img.dtype = .uint8 ∧
      img.data = ((List.range (width * height * 4)).map sceneRgba).map
        (fun x => ((x % 256 : Nat) : Rat))) ∧
    (∃ img,
      cam.get_image sceneRgba sceneDepth "depth" =
        (.ok img,
         [.getCameraImage width height cam._view_matrix cam._proj_matrix shadows
            [1, 1, 1] env._env.client .bulletHardwareOpenGL .noSegmentationMask]) ∧
      img.shape = [height, width, 1] ∧ img.dtype = .float32 ∧
      img.data = (List.range (width * height)).map sceneDepth) := by
  by_cases hh : height = 0
  · exfalso
    simp [PerspectiveCamera.init, hh] at hc
  · have hcam : cam =
        { _client_id := env._env.client
          _fov := fov
          _width := width
          _height := height
          _clip_far := clip_far
          _clip_near := clip_near
          _shadows := shadows
          _origin := origin
          _lookat := lookat
          _upref := [0, 0, 1]
          _view_matrix := computeViewMatrix origin lookat [0, 0, 1]
          _proj_matrix := computeProjectionMatrixFOV fov ((width : Rat) / (height : Rat))
            clip_near clip_far } := by
      simp [PerspectiveCamera.init, hh] at hc
      exact hc.symm
    subst hcam
    refine ⟨rfl, rfl, rfl, rfl, rfl, rfl, ⟨_, get_image_rgba _ sceneRgba sceneDepth, rfl, rfl, rfl⟩,
      ⟨_, get_image_depth _ sceneRgba sceneDepth, rfl, rfl, rfl⟩⟩

/-- C6 witness: the concrete 2×1 camera returns a (1, 2, 4) uint8 rgba
buffer rendered with the construction-time matrices. -/
theorem get_image_shapes_witness :
    ∃ img,
      camW.get_image (fun _ => 0) (fun _ => 0) "rgba" =
        (.ok img,
         [.getCameraImage 2 1 camW._view_matrix camW._proj_matrix false
            [1, 1, 1] envW0._env.client .bulletHardwareOpenGL .noSegmentationMask]) ∧
      img.shape = [1, 2, 4] ∧ img.dtype = .uint8 ∧
      img.data = ((List.range (2 * 1 * 4)).map (fun _ => 0)).map
        (fun x => ((x % 256 : Nat) : Rat)) :=
  (get_image_shapes envW0 [0, 0, 0] [1, 1, 1] 45 2 1 1 300 false camW
    (fun _ => 0) (fun _ => 0) (by rfl)).2.2.2.2.2.2.1

/-- C10: every `get_image` call issues exactly one engine render request —
at the camera's fixed resolution, with its fixed matrices, shadow flag and
light direction — before the mode string is examined: the trace is the
same for every mode string, and for an unrecognized mode the error is
produced in addition to (not instead of) that render. -/
theorem get_image_renders_first (cam : PerspectiveCamera)
    (sceneRgba : Nat → Nat) (sceneDepth : Nat → Rat) (mode : String) :
    (cam.get_image sceneRgba sceneDepth mode).2 =
      [.getCameraImage cam._width cam._height cam._view_matrix cam._proj_matrix
         cam._shadows [1, 1, 1] cam._client_id .bulletHardwareOpenGL
         .noSegmentationMask] ∧
    (mode ≠ "rgba" → mode ≠ "depth" →
      (cam.get_image sceneRgba sceneDepth mode).1 = .error (.modeNotUnderstood mode)) := by
  constructor
  · by_cases h1 : mode = "rgba"
    · subst h1
      rw [get_image_rgba]
    · by_cases h2 : mode = "depth"
      · subst h2
        rw [get_image_depth]
      · simp only [PerspectiveCamera.get_image, if_neg h1, if_neg h2]
  · intro h1 h2
    simp only [PerspectiveCamera.get_image, if_neg h1, if_neg h2]

/-- C10 witness: the concrete camera queried with the unrecognized mode
"bogus" still performs exactly its one fixed render request, and only then
reports the unrecognized-mode error. -/
theorem get_image_renders_first_witness :
    (camW.get_image (fun _ => 0) (fun _ => 0) "bogus").2 =
      [.getCameraImage 2 1 camW._view_matrix camW._proj_matrix false [1, 1, 1] 0
         .bulletHardwareOpenGL .noSegmentationMask] ∧
    (camW.get_image (fun _ => 0) (fun _ => 0) "bogus").1 =
      .error (.modeNotUnderstood "bogus") := by
  obtain ⟨a, b⟩ := get_image_renders_first camW (fun _ => 0) (fun _ => 0) "bogus"
  exact ⟨a, b (by decide) (by decide)⟩
